import Mathlib

/-!
Verification development for two source files of the BentoML repository:

* `src/bentoml/_internal/io_descriptors/file.py` — the `File` / `BytesIOFile`
  IO descriptor that converts HTTP request bodies into file-like objects.
* `src/src/bentoml_io/fields.py` — the pydantic field adapters: the `File`
  byte round-trip (`_get_file` / `_get_file_bytes`), `TensorSchema`,
  `DataframeSchema`, and the `arrow_serialization` context manager touching
  the module-global `__in_arrow_serialization__` flag.

The Python code is shallowly embedded: byte strings become `List Nat`,
numpy/TensorFlow/PyTorch arrays become an explicit `NDArray` record of shape,
flat data and a framework dtype tag, exceptions become `Except String` or
`Option`, and the single mutable global flag becomes explicit state threaded
through a tiny program type `Prog`.
-/

namespace BentoML

/-! Section: binary files (`io.BytesIO`, `t.BinaryIO`)

A binary file object is modelled as its byte contents plus a cursor, enough
to give `seek`/`read` their Python semantics. -/

/-- A binary file object: byte contents plus the current cursor position. -/
structure BinFile where
  data : List Nat
  pos : Nat
  deriving Repr, DecidableEq

/-- Python `f.seek(n)`: move the cursor to absolute position `n`. -/
def BinFile.seek (f : BinFile) (n : Nat) : BinFile :=
  { f with pos := n }

/-- Python `f.read()`: return everything from the cursor on and move the cursor to
the end. -/
def BinFile.read (f : BinFile) : List Nat × BinFile :=
  (f.data.drop f.pos, { f with pos := f.data.length })

/-- Python `io.BytesIO(b)`: a fresh in-memory buffer over the bytes `b`, cursor at 0. -/
def bytesBuf (b : List Nat) : BinFile :=
  ⟨b, 0⟩

/-! Section: `_get_file` and `_get_file_bytes` (fields.py lines 68–79)

`_get_file` receives either a `bytes` object or something that already has a
`read` attribute (a binary file object); the two cases are the two
constructors of `FileArg`. -/

/-- The argument type `bytes | t.BinaryIO` of `_get_file`. A `fileObj` is any
object with a `read` attribute. -/
inductive FileArg where
  | bytes (b : List Nat)
  | fileObj (f : BinFile)
  deriving Repr, DecidableEq

/-- Python `_get_file(obj)`: if the object has a `read` attribute it is returned
unchanged, otherwise it is wrapped in a fresh `io.BytesIO`. -/
def _get_file : FileArg → BinFile
  | .bytes b => bytesBuf b
  | .fileObj f => f

/-- Python `_get_file_bytes(obj)`: `obj.seek(0)` then `obj.read()`. -/
def _get_file_bytes (f : BinFile) : List Nat :=
  ((f.seek 0).read).1

/-! Section: framework dtypes (fields.py `TensorSchema.framework_dtype`)

`getattr(np, dtype)`, `getattr(tf, dtype)` and `getattr(torch, dtype)` are
modelled as a dtype name tagged with the framework module it was looked up
in. -/

/-- A framework dtype object: the attribute `dtype` of the `np`, `tf` or
`torch` module. -/
inductive FrameworkDtype where
  | np (name : String)
  | tf (name : String)
  | torch (name : String)
  deriving Repr, DecidableEq

/-! Section: numpy ndarrays. -/

/-- A numpy ndarray: a shape, the row-major flat data, and the dtype it was
constructed with (`none` when no dtype was passed). -/
structure NDArray where
  shape : List Nat
  data : List Int
  dtype : Option FrameworkDtype := none
  deriving Repr, DecidableEq

/-- The nested-list values produced by `ndarray.tolist()`. -/
inductive NList where
  | scalar (x : Int)
  | list (xs : List NList)
  deriving Repr

mutual

/-- Boolean equality on `NList` (nested inductive, written by hand so that
it is structurally recursive and kernel-reducible). -/
def NList.beq : NList → NList → Bool
  | .scalar x, .scalar y => x == y
  | .list xs, .list ys => NList.beqList xs ys
  | _, _ => false

/-- Boolean equality on lists of `NList`. -/
def NList.beqList : List NList → List NList → Bool
  | [], [] => true
  | a :: as, b :: bs => NList.beq a b && NList.beqList as bs
  | _, _ => false

end

mutual

theorem NList.beq_iff : ∀ a b : NList, NList.beq a b = true ↔ a = b
  | .scalar x, .scalar y => by simp [NList.beq]
  | .scalar x, .list ys => by simp [NList.beq]
  | .list xs, .scalar y => by simp [NList.beq]
  | .list xs, .list ys => by
    simp only [NList.beq, NList.beqList_iff xs ys, NList.list.injEq]

theorem NList.beqList_iff : ∀ as bs : List NList, NList.beqList as bs = true ↔ as = bs
  | [], [] => by simp [NList.beqList]
  | [], b :: bs => by simp [NList.beqList]
  | a :: as, [] => by simp [NList.beqList]
  | a :: as, b :: bs => by
    simp [NList.beqList, Bool.and_eq_true, NList.beq_iff a b, NList.beqList_iff as bs]

end

instance : DecidableEq NList := fun a b =>
  decidable_of_iff (NList.beq a b = true) (NList.beq_iff a b)

instance {ε α : Type} [DecidableEq ε] [DecidableEq α] : DecidableEq (Except ε α) :=
  fun x y =>
    match x, y with
    | .ok a, .ok b =>
      if h : a = b then .isTrue (by rw [h]) else .isFalse (by simp [h])
    | .error e, .error f =>
      if h : e = f then .isTrue (by rw [h]) else .isFalse (by simp [h])
    | .ok _, .error _ => .isFalse (by simp)
    | .error _, .ok _ => .isFalse (by simp)

/-- Rebuild the nested-list form of an array from its shape and flat
row-major data: `toNested [] [x] = x` (a 0-d array lists to a scalar), and a
leading dimension `d` splits the data into `d` equal chunks. -/
def toNested : List Nat → List Int → NList
  | [], data => .scalar (data.headD 0)
  | d :: rest, data =>
    .list ((List.range d).map fun i =>
      toNested rest ((data.drop (i * rest.prod)).take rest.prod))

/-- Method `ndarray.tolist()`. -/
def NDArray.tolist (a : NDArray) : NList :=
  toNested a.shape a.data

/-- Method `ndarray.flatten()`: the 1-dimensional array over the same data. -/
def NDArray.flatten (a : NDArray) : NDArray :=
  ⟨[a.data.length], a.data, a.dtype⟩

/-- Method `ndarray.reshape(shape)`: succeeds exactly when the element count matches
the product of the new shape's entries. -/
def NDArray.reshape (a : NDArray) (s : List Nat) : Option NDArray :=
  if a.data.length = s.prod then some ⟨s, a.data, a.dtype⟩ else none

/-! Section: Python tensors (`np.ndarray | tf.Tensor | torch.Tensor`)

The three tensor kinds `TensorSchema.encode` may receive. Method lookup is
duck-typed in Python, so each method is partial (`Option`): calling it on an
object that lacks the attribute is an `AttributeError`, i.e. `none`. -/

/-- The union type `TensorType` of fields.py. -/
inductive PyTensor where
  | npArray (a : NDArray)
  | tfTensor (a : NDArray)
  | torchTensor (a : NDArray)
  deriving Repr, DecidableEq

/-- Method `arr.numpy()`: TensorFlow and PyTorch tensors expose their data as a
numpy ndarray; numpy arrays have no such method. -/
def PyTensor.numpy : PyTensor → Option NDArray
  | .npArray _ => none
  | .tfTensor a => some a
  | .torchTensor a => some a

/-- Method `arr.cpu()`: only PyTorch tensors have it; it yields a (CPU) torch
tensor over the same data. -/
def PyTensor.cpu : PyTensor → Option PyTensor
  | .torchTensor a => some (.torchTensor a)
  | _ => none

/-- Using the value directly as a numpy ndarray (the `numpy_array = arr`
branch of `encode`): the later `.flatten()`/`.tolist()` calls are ndarray
methods, so this is defined exactly for numpy arrays. -/
def PyTensor.asNdarray : PyTensor → Option NDArray
  | .npArray a => some a
  | _ => none

/-! Section: `TensorSchema` (fields.py lines 92–163). -/

/-- The `TensorSchema` dataclass: a format tag, an optional dtype name and an
optional shape. -/
structure TensorSchema where
  format : String
  dtype : Option String := none
  shape : Option (List Nat) := none
  deriving Repr, DecidableEq

/-- Property `TensorSchema.dim`: `None` when the shape is `None`, otherwise
`functools.reduce(operator.mul, self.shape, 1)` — a left fold of
multiplication with initial value 1. -/
def TensorSchema.dim (s : TensorSchema) : Option Nat :=
  s.shape.map fun sh => sh.foldl (· * ·) 1

/-- Property `TensorSchema.framework_dtype`: `None` when `dtype` is `None`, otherwise
the attribute named `dtype` of the module selected by the format tag —
`np` for "numpy-array", `tf` for "tf-tensor", `torch` for everything else. -/
def TensorSchema.framework_dtype (s : TensorSchema) : Option FrameworkDtype :=
  match s.dtype with
  | none => none
  | some d =>
    if s.format = "numpy-array" then some (.np d)
    else if s.format = "tf-tensor" then some (.tf d)
    else some (.torch d)

/-- Method `TensorSchema.encode(arr)` with the module-global
`__in_arrow_serialization__` flag passed explicitly as `flag`:
dispatch on the format tag to obtain a numpy ndarray ("numpy-array" uses the
value directly, "tf-tensor" calls `arr.numpy()`, anything else calls
`arr.cpu().numpy()`), flatten it when the flag is set, and return its
`tolist()`. -/
def TensorSchema.encode (s : TensorSchema) (flag : Bool) (arr : PyTensor) :
    Option NList := do
  let numpy_array ←
    if s.format = "numpy-array" then arr.asNdarray
    else if s.format = "tf-tensor" then arr.numpy
    else do (← arr.cpu).numpy
  let numpy_array := if flag then numpy_array.flatten else numpy_array
  return numpy_array.tolist

/-- Constructor `np.array(obj, dtype=dt)` on a flat list of scalars: a 1-dimensional
ndarray. -/
def np_array (obj : List Int) (dt : Option FrameworkDtype) : NDArray :=
  ⟨[obj.length], obj, dt⟩

/-- Constructor `torch.tensor(obj, dtype=dt)` on a flat list of scalars: a 1-dimensional
tensor (represented by its ndarray of data). -/
def torch_tensor (obj : List Int) (dt : Option FrameworkDtype) : NDArray :=
  ⟨[obj.length], obj, dt⟩

/-- Constructor `tf.constant(obj, dtype=dt, shape=shape)`: with `shape=None` a
1-dimensional tensor over the data; with an explicit shape TensorFlow
reshapes at construction, requiring the element count to match. -/
def tf_constant (obj : List Int) (dt : Option FrameworkDtype)
    (shape : Option (List Nat)) : Option NDArray :=
  match shape with
  | none => some ⟨[obj.length], obj, dt⟩
  | some sh => (np_array obj dt).reshape sh

/-- Method `TensorSchema._validate(obj)` on a flat list of scalars: construct with
the selected framework's constructor using `framework_dtype`; numpy and
torch reshape afterwards when a shape is declared, TensorFlow receives the
shape at construction. Reshape failures (`ValueError` in Python) are `none`. -/
def TensorSchema._validate (s : TensorSchema) (obj : List Int) : Option NDArray :=
  if s.format = "numpy-array" then
    let arr := np_array obj s.framework_dtype
    match s.shape with
    | none => some arr
    | some sh => arr.reshape sh
  else if s.format = "tf-tensor" then
    tf_constant obj s.framework_dtype s.shape
  else
    let arr := torch_tensor obj s.framework_dtype
    match s.shape with
    | none => some arr
    | some sh => arr.reshape sh

/-! Section: `DataframeSchema` (fields.py lines 166–206)

A pandas dataframe is modelled as its ordered column names together with its
rows (row-major, rectangular in well-formed use). Python string quotes
inside error messages are elided, since Lean string literals may not contain
quote characters here. -/

/-- A pandas `DataFrame`: ordered column names and row-major data. -/
structure DataFrame where
  cols : List String
  rows : List (List Int)
  deriving Repr, DecidableEq

/-- Method `df.to_dict(orient="records")`: one dictionary per row, mapping each
column name to that row's value. -/
def DataFrame.to_dict_records (df : DataFrame) : List (List (String × Int)) :=
  df.rows.map fun r => df.cols.zip r

/-- Method `df.to_dict(orient="list")`: a dictionary mapping each column name to
the list of that column's values down the rows. -/
def DataFrame.to_dict_list (df : DataFrame) : List (String × List Int) :=
  df.cols.enum.map fun p => (p.2, df.rows.map fun r => r.getD p.1 0)

/-- The two encoded forms a dataframe can serialize to: a list of per-row
dictionaries, or a dictionary from column names to value lists. -/
inductive DFEncoded where
  | records (rows : List (List (String × Int)))
  | columns (cols : List (String × List Int))
  deriving Repr, DecidableEq

/-- The `DataframeSchema` dataclass. -/
structure DataframeSchema where
  orient : String := "records"
  columns : Option (List String) := none
  deriving Repr, DecidableEq

/-- Method `DataframeSchema.encode(df)`: `to_dict(orient="records")` when orient is
"records", `to_dict(orient="list")` when orient is "columns", otherwise a
`ValueError`. -/
def DataframeSchema.encode (s : DataframeSchema) (df : DataFrame) :
    Except String DFEncoded :=
  if s.orient = "records" then .ok (.records df.to_dict_records)
  else if s.orient = "columns" then .ok (.columns df.to_dict_list)
  else .error "ValueError: Only records and columns are supported for orient"

/-! Section: the `__in_arrow_serialization__` global flag (fields.py lines 33–44)

The one piece of mutable global state. Code that may read or write the flag,
and may raise, is embedded as a small program type `Prog`; `Prog.run` threads
the flag through. -/

/-- A computation over the global `__in_arrow_serialization__` flag: it can
read the flag, write it, raise an exception, or return a value. -/
inductive Prog (α : Type) where
  | pure (a : α)
  | getFlag (k : Bool → Prog α)
  | setFlag (b : Bool) (next : Prog α)
  | throw (msg : String)

/-- Run a program from a given flag state, producing the outcome (a value or
an uncaught exception) and the final flag state. -/
def Prog.run {α : Type} : Prog α → Bool → Except String α × Bool
  | .pure a, s => (.ok a, s)
  | .getFlag k, s => (k s).run s
  | .setFlag b p, _ => p.run b
  | .throw m, s => (.error m, s)

/-- The `arrow_serialization()` context manager around a body: it sets the
global flag to `True`, runs the body, and in a `finally` clause sets the
flag back to `False` — so the body's outcome (normal or exceptional)
propagates while the final flag state is unconditionally `False`. -/
def arrow_serialization {α : Type} (body : Prog α) (_initial : Bool) :
    Except String α × Bool :=
  let r := body.run true
  (r.1, false)

/-- Method `TensorSchema.encode` as it actually executes: it reads the global
`__in_arrow_serialization__` flag and then computes `encode` with the flag
it read. A dispatch `AttributeError` surfaces as a raised exception. -/
def TensorSchema.encodeProg (s : TensorSchema) (arr : PyTensor) : Prog NList :=
  .getFlag fun flag =>
    match s.encode flag arr with
    | some r => .pure r
    | none => .throw "AttributeError"

/-- Two calls to `encode` on the same schema and tensor, with an arbitrary
program `p` running between them: returns the two results. -/
def encodeTwice (s : TensorSchema) (arr : PyTensor) (p : Prog Unit)
    (s0 : Bool) : Except String NList × Except String NList :=
  let r1 := (s.encodeProg arr).run s0
  let rp := p.run r1.2
  let r2 := (s.encodeProg arr).run rp.2
  (r1.1, r2.1)

/-! Section: `BytesIOFile.from_http_request` (file.py lines 127–153)

The request is modelled by the quantities the method inspects: the parsed
main value of the Content-Type header (what `parse_options_header` returns,
decoded), the parsed multipart form values in iteration order, and the raw
body bytes. `BentoMLException` becomes `Except.error`; the Python messages
are reproduced with their string quotes elided. -/

/-- A value of a parsed multipart form: either a plain string field or a
`starlette` `UploadFile` with a content type, an open file and a filename. -/
inductive FormValue where
  | str (s : String)
  | uploadFile (content_type : String) (file : BinFile) (filename : String)
  deriving Repr, DecidableEq

/-- Structure `FileLike[bytes](file, name)` from `bentoml._internal.types`. -/
structure FileLike where
  file : BinFile
  name : String
  deriving Repr, DecidableEq

/-- An HTTP request as `from_http_request` sees it. -/
structure Request where
  /-- the main value parsed from the Content-Type header, utf-8 decoded -/
  content_type : String
  /-- the multipart form's values, in the form's iteration order -/
  form : List FormValue
  /-- the raw request body -/
  body : List Nat
  deriving Repr, DecidableEq

/-- The `for val in form.values(): ... else: ...` loop of
`from_http_request`: each `UploadFile`'s content type is appended to
`found_mimes` and then compared with the descriptor's mime type; the first
match breaks out with a `FileLike` over that value's file and filename; if
the loop completes, the `else` clause raises — with
`no File found in multipart form` when no `UploadFile` was seen at all,
otherwise listing the content types found. -/
def formLoop (mime_type : String) : List FormValue → List String →
    Except String FileLike
  | [], found_mimes =>
    if found_mimes.length = 0 then
      .error "no File found in multipart form"
    else
      .error ("multipart File should have Content-Type " ++ mime_type ++
        ", got files with content types " ++ String.intercalate ", " found_mimes)
  | .str _ :: rest, found_mimes => formLoop mime_type rest found_mimes
  | .uploadFile ct f n :: rest, found_mimes =>
    let found_mimes := found_mimes ++ [ct]
    if ct = mime_type then .ok ⟨f, n⟩
    else formLoop mime_type rest found_mimes

/-- Method `BytesIOFile.from_http_request(request)` for a descriptor whose
`_mime_type` is `mime_type`: multipart requests go through the form loop;
otherwise a request whose content type equals the descriptor's mime type
yields a `FileLike` over a fresh in-memory buffer holding the raw body,
named `<request body>`; any other content type raises. -/
def from_http_request (mime_type : String) (req : Request) :
    Except String FileLike :=
  if req.content_type = "multipart/form-data" then
    formLoop mime_type req.form []
  else if req.content_type = mime_type then
    .ok ⟨bytesBuf req.body, "<request body>"⟩
  else
    .error ("File should have Content-Type " ++ mime_type ++
      " or multipart/form-data, got " ++ req.content_type ++ " instead")

/-- Spec-side description for the refinement claim about multipart requests:
the file and filename of the first form value (in iteration order) that is
an `UploadFile` whose content type equals the descriptor's mime type. -/
def firstMatchingUpload (mime_type : String) :
    List FormValue → Option (BinFile × String)
  | [] => none
  | .str _ :: rest => firstMatchingUpload mime_type rest
  | .uploadFile ct f n :: rest =>
    if ct = mime_type then some (f, n) else firstMatchingUpload mime_type rest

/-- The content types of the `UploadFile` values of a form, in iteration
order (what the loop accumulates in `found_mimes` when it never breaks). -/
def uploadContentTypes : List FormValue → List String
  | [] => []
  | .str _ :: rest => uploadContentTypes rest
  | .uploadFile ct _ _ :: rest => ct :: uploadContentTypes rest

/-! Section: helper lemmas shared by the claim theorems. -/

/-- Running the embedded `encode` call from flag state `f` yields `encode`
computed at `f` (an `AttributeError` surfacing as an exception) and leaves
the flag unchanged. -/
theorem encodeProg_run (s : TensorSchema) (arr : PyTensor) (f : Bool) :
    (s.encodeProg arr).run f =
      ((s.encode f arr).elim (Except.error "AttributeError") Except.ok, f) := by
  cases h : s.encode f arr <;> simp [TensorSchema.encodeProg, Prog.run, h]

/-- When some form value is an `UploadFile` whose content type equals the
descriptor's mime type, the form loop returns the first such value's file
and filename, whatever was accumulated so far. -/
theorem formLoop_of_firstMatching (mime : String) :
    ∀ (form : List FormValue) (acc : List String) (f : BinFile) (n : String),
      firstMatchingUpload mime form = some (f, n) →
      formLoop mime form acc = .ok ⟨f, n⟩
  | [], acc, f, n, h => by simp [firstMatchingUpload] at h
  | .str s :: rest, acc, f, n, h => by
    simp only [firstMatchingUpload] at h
    simpa [formLoop] using formLoop_of_firstMatching mime rest acc f n h
  | .uploadFile ct fl nm :: rest, acc, f, n, h => by
    by_cases hct : ct = mime
    · simp only [firstMatchingUpload, if_pos hct, Option.some.injEq, Prod.mk.injEq] at h
      simp [formLoop, hct, h.1, h.2]
    · simp only [firstMatchingUpload, if_neg hct] at h
      simpa [formLoop, hct] using
        formLoop_of_firstMatching mime rest (acc ++ [ct]) f n h

/-- The spec-side first-match search fails exactly when no `UploadFile` of
the form carries the descriptor's mime type. -/
theorem firstMatchingUpload_eq_none_iff (mime : String) (form : List FormValue) :
    firstMatchingUpload mime form = none ↔ mime ∉ uploadContentTypes form := by
  induction form with
  | nil => simp [firstMatchingUpload, uploadContentTypes]
  | cons v rest ih =>
    cases v with
    | str s => simpa [firstMatchingUpload, uploadContentTypes] using ih
    | uploadFile ct f n =>
      by_cases hct : ct = mime
      · subst hct
        simp [firstMatchingUpload, uploadContentTypes]
      · simp [firstMatchingUpload, uploadContentTypes, hct, ih, Ne.symm hct]

/-- When no `UploadFile` of the remaining form matches, the form loop runs to
completion and raises: with no `UploadFile` seen at all (accumulator and
remainder both empty) the message is `no File found in multipart form`,
otherwise the message lists every content type seen. -/
theorem formLoop_of_no_match (mime : String) :
    ∀ (form : List FormValue) (acc : List String),
      mime ∉ uploadContentTypes form →
      formLoop mime form acc =
        (if acc ++ uploadContentTypes form = [] then
          Except.error "no File found in multipart form"
        else
          Except.error ("multipart File should have Content-Type " ++ mime ++
            ", got files with content types " ++
            String.intercalate ", " (acc ++ uploadContentTypes form)))
  | [], acc, _ => by
    by_cases hacc : acc = []
    · simp [formLoop, uploadContentTypes, hacc]
    · simp [formLoop, uploadContentTypes, hacc, List.length_eq_zero]
  | .str s :: rest, acc, h => by
    simp only [uploadContentTypes] at h ⊢
    simpa [formLoop] using formLoop_of_no_match mime rest acc h
  | .uploadFile ct f n :: rest, acc, h => by
    simp only [uploadContentTypes, List.mem_cons, not_or] at h
    have hct : ct ≠ mime := fun he => h.1 he.symm
    have := formLoop_of_no_match mime rest (acc ++ [ct]) h.2
    simp only [formLoop, if_neg hct, this, uploadContentTypes]
    simp [List.append_assoc]

/-! Section: the claim theorems. -/

/-- C2: for every HTTP request whose Content-Type is not
`multipart/form-data` but equals the descriptor's mime type,
`BytesIOFile.from_http_request` returns a `FileLike` over a fresh in-memory
buffer containing exactly the raw request body, named `<request body>`. -/
theorem C2_raw_body_filelike (mime : String) (req : Request)
    (h1 : req.content_type ≠ "multipart/form-data")
    (h2 : req.content_type = mime) :
    from_http_request mime req = .ok ⟨bytesBuf req.body, "<request body>"⟩ := by
  subst h2
  simp [from_http_request, h1]

/-- Witness for C2 at a concrete request. -/
theorem C2_raw_body_filelike_witness :
    from_http_request "application/pdf" ⟨"application/pdf", [], [7, 8, 9]⟩ =
      .ok ⟨bytesBuf [7, 8, 9], "<request body>"⟩ :=
  C2_raw_body_filelike "application/pdf" ⟨"application/pdf", [], [7, 8, 9]⟩
    (by decide) rfl

/-- C4 (counterexample): with the global `__in_arrow_serialization__` flag
set, `TensorSchema.encode` on a 2×2 numpy array does not return the
`tolist()` of the array — it returns the `tolist()` of its flattening — so
the claim that in all three dispatch cases the result is the nested-list
form of the resulting numpy array fails as stated. -/
theorem C4_encode_counterexample :
    TensorSchema.encode ⟨"numpy-array", none, none⟩ true
      (.npArray ⟨[2, 2], [1, 2, 3, 4], none⟩) ≠
    some (NDArray.tolist ⟨[2, 2], [1, 2, 3, 4], none⟩) := by decide

/-- C4 (amended): `TensorSchema.encode` dispatches on the format tag by
string comparison among exactly three frameworks — `numpy-array` uses the
array directly, `tf-tensor` converts via `numpy()`, and every other format
string is treated as a torch tensor and converted via `cpu().numpy()` — and
in all three cases the result is the `tolist()` of the resulting numpy
array, which is first flattened when the global `__in_arrow_serialization__`
flag is set. -/
theorem C4_encode_dispatch_amended (s : TensorSchema) (flag : Bool) (a : NDArray) :
    (s.format = "numpy-array" →
      s.encode flag (.npArray a) = some (if flag then a.flatten.tolist else a.tolist)) ∧
    (s.format = "tf-tensor" →
      s.encode flag (.tfTensor a) = some (if flag then a.flatten.tolist else a.tolist)) ∧
    (s.format ≠ "numpy-array" → s.format ≠ "tf-tensor" →
      s.encode flag (.torchTensor a) = some (if flag then a.flatten.tolist else a.tolist)) := by
  refine ⟨fun h => ?_, fun h => ?_, fun h1 h2 => ?_⟩
  · cases flag <;> simp [TensorSchema.encode, h, PyTensor.asNdarray]
  · cases flag <;> simp [TensorSchema.encode, h, PyTensor.numpy]
  · cases flag <;>
      simp [TensorSchema.encode, h1, h2, PyTensor.cpu, PyTensor.numpy]

/-- Witness for the amended C4 on the default-format (torch) branch. -/
theorem C4_encode_dispatch_amended_witness :
    TensorSchema.encode ⟨"torch-tensor", none, none⟩ false
      (.torchTensor ⟨[2], [5, 6], none⟩) =
    some (if false then NDArray.flatten ⟨[2], [5, 6], none⟩ |>.tolist
          else NDArray.tolist ⟨[2], [5, 6], none⟩) :=
  (C4_encode_dispatch_amended ⟨"torch-tensor", none, none⟩ false ⟨[2], [5, 6], none⟩).2.2
    (by decide) (by decide)

/-- C5: `TensorSchema._validate` constructs the decoded tensor with the
selected framework's constructor using the schema's declared dtype
(`framework_dtype`), and whenever the schema declares a shape the returned
tensor has exactly that shape, for every input list whose element count
equals the product of the shape's entries. -/
theorem C5_validate_shape_dtype (s : TensorSchema) (sh : List Nat) (obj : List Int)
    (hsh : s.shape = some sh) (hlen : obj.length = sh.prod) :
    ∃ arr, s._validate obj = some arr ∧ arr.shape = sh ∧
      arr.dtype = s.framework_dtype := by
  unfold TensorSchema._validate
  by_cases h1 : s.format = "numpy-array"
  · exact ⟨⟨sh, obj, s.framework_dtype⟩,
      by simp [h1, hsh, np_array, NDArray.reshape, hlen], rfl, rfl⟩
  · by_cases h2 : s.format = "tf-tensor"
    · exact ⟨⟨sh, obj, s.framework_dtype⟩,
        by simp [h1, h2, hsh, tf_constant, np_array, NDArray.reshape, hlen], rfl, rfl⟩
    · exact ⟨⟨sh, obj, s.framework_dtype⟩,
        by simp [h1, h2, hsh, torch_tensor, NDArray.reshape, hlen], rfl, rfl⟩

/-- Witness for C5 on the TensorFlow branch with shape 2×3. -/
theorem C5_validate_shape_dtype_witness :
    ∃ arr, TensorSchema._validate ⟨"tf-tensor", some "float32", some [2, 3]⟩
        [1, 2, 3, 4, 5, 6] = some arr ∧ arr.shape = [2, 3] ∧
      arr.dtype = TensorSchema.framework_dtype ⟨"tf-tensor", some "float32", some [2, 3]⟩ :=
  C5_validate_shape_dtype ⟨"tf-tensor", some "float32", some [2, 3]⟩ [2, 3]
    [1, 2, 3, 4, 5, 6] rfl (by decide)

/-- C6: `DataframeSchema.encode` returns the dataframe as a list of per-row
dictionaries when orient is `records`, as a dictionary mapping column names
to value lists when orient is `columns`, and raises a `ValueError` for every
other orient string. -/
theorem C6_dataframe_encode_dispatch (s : DataframeSchema) (df : DataFrame) :
    (s.orient = "records" →
      s.encode df = .ok (.records (df.rows.map fun r => df.cols.zip r))) ∧
    (s.orient = "columns" →
      s.encode df = .ok (.columns (df.cols.enum.map fun p =>
        (p.2, df.rows.map fun r => r.getD p.1 0)))) ∧
    (s.orient ≠ "records" → s.orient ≠ "columns" →
      s.encode df = .error "ValueError: Only records and columns are supported for orient") := by
  refine ⟨fun h => ?_, fun h => ?_, fun h1 h2 => ?_⟩
  · simp [DataframeSchema.encode, h, DataFrame.to_dict_records]
  · simp [DataframeSchema.encode, h, DataFrame.to_dict_list]
  · simp [DataframeSchema.encode, h1, h2]

/-- Witness for C6 on an unsupported orient string. -/
theorem C6_dataframe_encode_dispatch_witness :
    DataframeSchema.encode ⟨"split", none⟩ ⟨["a"], [[1]]⟩ =
      .error "ValueError: Only records and columns are supported for orient" :=
  (C6_dataframe_encode_dispatch ⟨"split", none⟩ ⟨["a"], [[1]]⟩).2.2
    (by decide) (by decide)

/-- C7 (counterexample): `TensorSchema.encode` is not independent of mutable
global state — two calls with the same schema and the same 2×2 numpy array
return different results when code running between them sets the global
`__in_arrow_serialization__` flag. -/
theorem C7_encode_global_state_counterexample :
    (encodeTwice ⟨"numpy-array", none, none⟩ (.npArray ⟨[2, 2], [1, 2, 3, 4], none⟩)
        (.setFlag true (.pure ())) false).1 ≠
    (encodeTwice ⟨"numpy-array", none, none⟩ (.npArray ⟨[2, 2], [1, 2, 3, 4], none⟩)
        (.setFlag true (.pure ())) false).2 := by decide

/-- C7 (amended): two calls to `TensorSchema.encode` with the same schema
fields and the same input tensor return the same result provided the code
that ran between them leaves the global `__in_arrow_serialization__` flag as
it found it; `encode` reads that one mutable global, and depends on nothing
else but its arguments. -/
theorem C7_encode_flag_dependence_amended (s : TensorSchema) (arr : PyTensor)
    (p : Prog Unit) (s0 : Bool) (hp : (p.run s0).2 = s0) :
    (encodeTwice s arr p s0).1 = (encodeTwice s arr p s0).2 := by
  unfold encodeTwice
  simp [encodeProg_run, hp]

/-- Witness for the amended C7 with a flag-preserving interleaved program. -/
theorem C7_encode_flag_dependence_amended_witness :
    (encodeTwice ⟨"numpy-array", none, none⟩ (.npArray ⟨[2, 2], [1, 2, 3, 4], none⟩)
        (.pure ()) false).1 =
    (encodeTwice ⟨"numpy-array", none, none⟩ (.npArray ⟨[2, 2], [1, 2, 3, 4], none⟩)
        (.pure ()) false).2 :=
  C7_encode_flag_dependence_amended ⟨"numpy-array", none, none⟩
    (.npArray ⟨[2, 2], [1, 2, 3, 4], none⟩) (.pure ()) false rfl

/-- C8: composing the File field's decoder and encoder is the identity on
byte strings — `_get_file_bytes(_get_file(b)) = b` — and `_get_file` returns
any object that already has a `read` attribute unchanged. -/
theorem C8_file_roundtrip :
    (∀ b : List Nat, _get_file_bytes (_get_file (.bytes b)) = b) ∧
    (∀ f : BinFile, _get_file (.fileObj f) = f) := by
  constructor
  · intro b
    simp [_get_file, _get_file_bytes, bytesBuf, BinFile.seek, BinFile.read]
  · intro f
    rfl

/-- Witness for C8 at a concrete byte string. -/
theorem C8_file_roundtrip_witness :
    _get_file_bytes (_get_file (.bytes [1, 2, 3])) = [1, 2, 3] :=
  C8_file_roundtrip.1 [1, 2, 3]

/-- C9: `TensorSchema.dim` is `None` exactly when the schema's shape is
`None`, and otherwise equals the product of the shape's entries, the empty
shape giving 1. -/
theorem C9_dim_product (s : TensorSchema) :
    (s.dim = none ↔ s.shape = none) ∧
    (∀ sh, s.shape = some sh → s.dim = some sh.prod) ∧
    (s.shape = some [] → s.dim = some 1) := by
  refine ⟨?_, fun sh h => ?_, fun h => ?_⟩
  · cases h : s.shape <;> simp [TensorSchema.dim, h]
  · simp [TensorSchema.dim, h, List.prod_eq_foldl]
  · simp [TensorSchema.dim, h]

/-- Witness for C9 at shape 2×3. -/
theorem C9_dim_product_witness :
    TensorSchema.dim ⟨"numpy-array", none, some [2, 3]⟩ = some ([2, 3] : List Nat).prod :=
  (C9_dim_product ⟨"numpy-array", none, some [2, 3]⟩).2.1 [2, 3] rfl

/-- C10: the `arrow_serialization` context manager runs its body with the
global `__in_arrow_serialization__` flag set to `True` (the body's outcome,
normal or exceptional, is exactly the outcome of running the body from flag
state `True`), and on exit the flag is always `False`, whatever the flag was
before and whether or not the body raised. -/
theorem C10_arrow_serialization_flag {α : Type} (body : Prog α) (s0 : Bool) :
    (arrow_serialization body s0).2 = false ∧
    (arrow_serialization body s0).1 = (body.run true).1 :=
  ⟨rfl, rfl⟩

/-- Witness for C10 with a body that raises: the exception propagates and
the flag still ends up `False`. -/
theorem C10_arrow_serialization_flag_witness :
    (arrow_serialization (Prog.throw "boom" : Prog Unit) true).2 = false ∧
    (arrow_serialization (Prog.throw "boom" : Prog Unit) true).1 = Except.error "boom" :=
  ⟨(C10_arrow_serialization_flag (Prog.throw "boom") true).1,
    ((C10_arrow_serialization_flag (Prog.throw "boom") true).2).trans rfl⟩

/-- C1: for every HTTP request whose Content-Type parses to
`multipart/form-data`, `BytesIOFile.from_http_request` returns a `FileLike`
wrapping the file and filename of the first form value (in the form's
iteration order) that is an `UploadFile` whose content type equals the
descriptor's mime type; since the result is fully determined by that first
match, later form values are not consulted once a match is found. -/
theorem C1_returns_first_matching_upload (mime : String) (req : Request)
    (f : BinFile) (n : String)
    (hct : req.content_type = "multipart/form-data")
    (hfirst : firstMatchingUpload mime req.form = some (f, n)) :
    from_http_request mime req = .ok ⟨f, n⟩ := by
  unfold from_http_request
  rw [hct]
  simpa using formLoop_of_firstMatching mime req.form [] f n hfirst

/-- Witness for C1: a form with a string field, a non-matching upload, a
matching upload and a further matching upload after it; the first match is
returned. -/
theorem C1_returns_first_matching_upload_witness :
    from_http_request "application/pdf"
      ⟨"multipart/form-data",
       [.str "x", .uploadFile "image/png" ⟨[1], 0⟩ "a",
        .uploadFile "application/pdf" ⟨[2, 3], 0⟩ "doc",
        .uploadFile "application/pdf" ⟨[9], 1⟩ "later"], [5]⟩ =
      .ok ⟨⟨[2, 3], 0⟩, "doc"⟩ :=
  C1_returns_first_matching_upload "application/pdf" _ ⟨[2, 3], 0⟩ "doc"
    rfl (by decide)

/-- C3: `BytesIOFile.from_http_request` raises exactly in three cases and
otherwise returns a value: (1) the Content-Type is neither
`multipart/form-data` nor the descriptor's mime type; (2) the Content-Type
is `multipart/form-data` and the form contains no `UploadFile` at all, with
message `no File found in multipart form`; (3) the form contains
`UploadFile` values but none whose content type equals the descriptor's mime
type, with a message listing the content types found. -/
theorem C3_error_cases (mime : String) (req : Request) :
    ((∃ e, from_http_request mime req = .error e) ↔
      (req.content_type ≠ "multipart/form-data" ∧ req.content_type ≠ mime) ∨
      (req.content_type = "multipart/form-data" ∧ uploadContentTypes req.form = []) ∨
      (req.content_type = "multipart/form-data" ∧ uploadContentTypes req.form ≠ [] ∧
        mime ∉ uploadContentTypes req.form)) ∧
    (req.content_type = "multipart/form-data" → uploadContentTypes req.form = [] →
      from_http_request mime req = .error "no File found in multipart form") ∧
    (req.content_type = "multipart/form-data" → uploadContentTypes req.form ≠ [] →
      mime ∉ uploadContentTypes req.form →
      from_http_request mime req =
        .error ("multipart File should have Content-Type " ++ mime ++
          ", got files with content types " ++
          String.intercalate ", " (uploadContentTypes req.form))) := by
  by_cases hct : req.content_type = "multipart/form-data"
  · have hfrom : from_http_request mime req = formLoop mime req.form [] := by
      unfold from_http_request
      rw [hct]
      simp
    by_cases hmem : mime ∈ uploadContentTypes req.form
    · obtain ⟨⟨f, n⟩, hfm⟩ : ∃ p, firstMatchingUpload mime req.form = some p := by
        cases hfm : firstMatchingUpload mime req.form with
        | none => exact absurd ((firstMatchingUpload_eq_none_iff mime req.form).1 hfm) (by simpa using hmem)
        | some p => exact ⟨p, rfl⟩
      have hok : from_http_request mime req = .ok ⟨f, n⟩ :=
        hfrom.trans (formLoop_of_firstMatching mime req.form [] f n hfm)
      refine ⟨?_, fun _ hnil => ?_, fun _ _ hno => ?_⟩
      · simp [hok, hct, hmem, List.ne_nil_of_mem hmem]
      · exact absurd hnil (List.ne_nil_of_mem hmem)
      · exact absurd hmem hno
    · have herr := formLoop_of_no_match mime req.form [] hmem
      simp only [List.nil_append] at herr
      by_cases hnil : uploadContentTypes req.form = []
      · rw [hnil] at herr
        simp only [if_pos rfl] at herr
        refine ⟨?_, fun _ _ => hfrom.trans herr, fun _ hne _ => absurd hnil hne⟩
        simp [hfrom, herr, hct, hnil]
      · rw [if_neg hnil] at herr
        refine ⟨?_, fun _ hnil2 => absurd hnil2 hnil, fun _ _ _ => hfrom.trans herr⟩
        simp [hfrom, herr, hct, hnil, hmem]
  · by_cases hmime : req.content_type = mime
    · have hok : from_http_request mime req = .ok ⟨bytesBuf req.body, "<request body>"⟩ := by
        unfold from_http_request
        rw [if_neg hct, if_pos hmime]
      have hmm : mime ≠ "multipart/form-data" := fun h => hct (hmime.trans h)
      exact ⟨by simp [hok, hct, hmime, hmm], fun h => absurd h hct, fun h => absurd h hct⟩
    · have herr : from_http_request mime req =
          .error ("File should have Content-Type " ++ mime ++
            " or multipart/form-data, got " ++ req.content_type ++ " instead") := by
        unfold from_http_request
        rw [if_neg hct, if_neg hmime]
      exact ⟨by simp [herr, hct, hmime], fun h => absurd h hct, fun h => absurd h hct⟩

/-- Witness for C3: a multipart request whose form holds only non-matching
uploads raises with the message listing the content types found. -/
theorem C3_error_cases_witness :
    from_http_request "application/pdf"
      ⟨"multipart/form-data",
       [.uploadFile "image/png" ⟨[1], 0⟩ "a", .uploadFile "text/csv" ⟨[], 0⟩ "b"], []⟩ =
      .error ("multipart File should have Content-Type " ++ "application/pdf" ++
        ", got files with content types " ++
        String.intercalate ", " (uploadContentTypes
          [.uploadFile "image/png" ⟨[1], 0⟩ "a", .uploadFile "text/csv" ⟨[], 0⟩ "b"])) :=
  (C3_error_cases "application/pdf" _).2.2 rfl (by decide) (by decide)

end BentoML
